import Mathlib

/-!
# Mint pipeline of `src/src/App.js`

A shallow embedding of the `App` component's submit pipeline
(`submitHandler`, `createImage`, `uploadImage`, `triggerDownload`, `mintImage`).

* Parsed response bodies and the metadata object are values of `JSVal`;
  environment variables and response headers, which are strings when present,
  are values of `StringOrUndefined`.
* The React state of the component is `AppState`; every state setter both
  updates the state and is recorded in the effect log.
* Every effect the handler performs (browser calls, HTTP requests, wallet calls)
  is recorded, in program order, as an `Event`.
* The outside world is a `World`: for each call site that awaits an external
  answer, the answer that call receives (a rejection or a value).  Each call
  site is executed at most once per run, so quantifying over all `World`s
  covers every possible behaviour of the services.
-/

namespace App

/-! ## JavaScript values -/

/-- JavaScript values as they appear in parsed JSON bodies. Numbers are
restricted to integers; how a number is rendered as text is left to the
platform function `numberToString` of the `World`. An object is the list of its
own properties; a lookup returns the first binding of the key. -/
inductive JSVal where
  | undefined : JSVal
  | null : JSVal
  | bool (b : Bool) : JSVal
  | num (n : Int) : JSVal
  | str (s : String) : JSVal
  | arr (items : List JSVal) : JSVal
  | obj (fields : List (String × JSVal)) : JSVal

/-- JavaScript exceptions / promise rejections. -/
inductive JSErr where
  /-- Thrown by `throw new Error(message)` in the program. -/
  | error (message : String) : JSErr
  /-- The `TypeError` raised by reading `property` of `base`, where `base` is
  `undefined` or `null`. -/
  | typeError (base property : String) : JSErr
  /-- The `TypeError` raised by converting to a primitive an object that has
  no callable `toString` or `valueOf` yielding a primitive. -/
  | notPrimitive : JSErr
  /-- A rejection coming from an external call (HTTP, zip, wallet). -/
  | rejected (reason : String) : JSErr

/-- The `ToBoolean` conversion used by `!x` and `x ? ..`. -/
def JSVal.truthy : JSVal → Bool
  | .undefined => false
  | .null => false
  | .bool b => b
  | .num n => n != 0
  | .str s => s != ""
  | .arr _ => true
  | .obj _ => true

/-- Whether an object has an own property named `key`. -/
def hasField (key : String) : List (String × JSVal) → Bool
  | [] => false
  | (k, _) :: rest => k == key || hasField key rest

mutual
/-- The `ToString` conversion applied by a template literal to a value parsed
from JSON. An object is converted through its `toString` method: the inherited
`Object.prototype.toString` gives `[object Object]`, whereas an own property
named `toString` (never callable in parsed JSON) shadows it, after which
`valueOf` yields no primitive either and a `TypeError` is thrown. An array is
converted through `join`. -/
def JSVal.toStr (numberToString : Int → String) : JSVal → Except JSErr String
  | .undefined => .ok "undefined"
  | .null => .ok "null"
  | .bool b => .ok (if b then "true" else "false")
  | .num n => .ok (numberToString n)
  | .str s => .ok s
  | .arr items => JSVal.joinItems numberToString true items
  | .obj fields => if hasField "toString" fields then .error .notPrimitive else .ok "[object Object]"
termination_by structural v => v
/-- The body of `Array.prototype.join(",")`: `undefined` and `null` elements
render as the empty string, every other element through `ToString`; `first`
tells whether no separator is due yet. -/
def JSVal.joinItems (numberToString : Int → String) (first : Bool) :
    List JSVal → Except JSErr String
  | [] => .ok ""
  | x :: rest =>
    match (match x with
      | .undefined => Except.ok ""
      | .null => Except.ok ""
      | v => JSVal.toStr numberToString v) with
    | .error e => .error e
    | .ok text =>
      match JSVal.joinItems numberToString false rest with
      | .error e => .error e
      | .ok tail => .ok ((if first then "" else ",") ++ text ++ tail)
termination_by structural l => l
end

/-- A value that is a string when present and `undefined` otherwise: an
environment variable inlined from `process.env`, or a response header. -/
inductive StringOrUndefined where
  | undefined : StringOrUndefined
  | str (value : String) : StringOrUndefined

/-- The `ToBoolean` conversion used by `!x`: `undefined` and the empty string
are falsy. -/
def StringOrUndefined.truthy : StringOrUndefined → Bool
  | .undefined => false
  | .str value => value != ""

/-- The `ToString` conversion used by template literals. -/
def StringOrUndefined.toStr : StringOrUndefined → String
  | .undefined => "undefined"
  | .str value => value

/-- Own-property lookup in an object literal. -/
def lookupField (key : String) : List (String × JSVal) → JSVal
  | [] => .undefined
  | (k, v) :: rest => if k = key then v else lookupField key rest

/-- The member access `v.key` for a property name that is not defined on any
built-in prototype (here `data`, `url`, `ipfsHash`): reading a property of
`undefined` or `null` throws a `TypeError`, an object yields its own property,
and every other value yields `undefined`. -/
def JSVal.getProp (v : JSVal) (key : String) : Except JSErr JSVal :=
  match v with
  | .undefined => .error (.typeError "undefined" key)
  | .null => .error (.typeError "null" key)
  | .obj fields => .ok (lookupField key fields)
  | _ => .ok .undefined

/-- The indexed access `v[i]`: a `TypeError` on `undefined` and `null`, the
element (or `undefined` past the end) on arrays, the one-character string on
strings, the own property named by the index on objects. -/
def JSVal.getIndex (v : JSVal) (i : Nat) : Except JSErr JSVal :=
  match v with
  | .undefined => .error (.typeError "undefined" (toString i))
  | .null => .error (.typeError "null" (toString i))
  | .arr items => .ok ((items.get? i).getD .undefined)
  | .str s => .ok (((s.data.get? i).map (fun c => JSVal.str (String.singleton c))).getD .undefined)
  | .obj fields => .ok (lookupField (toString i) fields)
  | _ => .ok .undefined

/-! ## Component state, effects, and the outside world -/

/-- Raw bytes of an `ArrayBuffer`. -/
abbrev Bytes := List Nat

/-- The `ethers` provider held in state once `loadBlockchainData` has run. -/
structure Provider where
  chainId : Nat

/-- The `ethers.Contract` held in state once `loadBlockchainData` has run. -/
structure Contract where
  address : String

/-- The `useState` cells of `App` that the submit pipeline reads or writes. -/
structure AppState where
  provider : Option Provider
  nft : Option Contract
  name : String
  description : String
  image : Option String
  url : Option String
  message : String
  isWaiting : Bool

/-- Content handed to a `Blob` or to `zip.file`: raw bytes, or the text
`JSON.stringify(value, null, indent)` (`indent = 0` for the plain
`JSON.stringify(value)`). -/
inductive Payload where
  | binary (data : Bytes) : Payload
  | json (value : JSVal) (indent : Nat) : Payload

/-- Observable effects of the handler, in program order. -/
inductive Event where
  /-- The call `e.preventDefault()`. -/
  | preventDefault : Event
  /-- The call `window.alert(text)`. -/
  | alert (text : String) : Event
  /-- The call `console.error(label, error)`. -/
  | consoleError (label : String) (error : JSErr) : Event
  | setIsWaiting (value : Bool) : Event
  | setMessage (value : String) : Event
  | setImage (value : Option String) : Event
  | setURL (value : Option String) : Event
  /-- The `POST` to the image generation endpoint. -/
  | generationRequest (url authorization prompt model : String) : Event
  /-- The `GET` of the generated image, `responseType: arraybuffer`. -/
  | imageDownload (url : JSVal) : Event
  /-- A multipart `post` of one `file` field to the storage endpoint. -/
  | storageUpload (url : String) (apiKey : StringOrUndefined) (filename mime : String)
      (content : Payload) : Event
  /-- The click on the generated link: the archive is offered for download. -/
  | archiveDownload (filename : String) (files : List (String × Payload)) : Event
  /-- The call `provider.getSigner()`. -/
  | getSigner : Event
  /-- The call `nft.connect(signer).mint(tokenURI, { value })`, `value` in wei. -/
  | mintSubmit (contract tokenURI : String) (value : Nat) : Event
  /-- The call `transaction.wait()`. -/
  | mintWait : Event

/-- The answers of the outside world, one per call site of the pipeline. -/
structure World where
  /-- The value of `process.env.REACT_APP_HUGGING_FACE_API_KEY`. -/
  huggingFaceKey : StringOrUndefined
  /-- The value of `process.env.REACT_APP_TATUM_API_KEY`. -/
  tatumKey : StringOrUndefined
  /-- Outcome of the generation `POST`: a rejection, or the response body. -/
  generation : Except JSErr JSVal
  /-- Outcome of the image `GET`: a rejection, or the `content-type` header and the data. -/
  imageFetch : Except JSErr (StringOrUndefined × Bytes)
  /-- The function `data ↦ Buffer.from(data).toString(base64)`. -/
  base64 : Bytes → String
  /-- The platform function `Number::toString` on the numbers of a JSON body. -/
  numberToString : Int → String
  /-- Outcome of the first storage `post`: a rejection, or the response body. -/
  imageUpload : Except JSErr JSVal
  /-- Outcome of `zip.generateAsync`: a rejection, or the archive blob. -/
  zipGenerate : Except JSErr Unit
  /-- Outcome of the second storage `post`: a rejection, or the response body. -/
  metadataUpload : Except JSErr JSVal
  /-- Outcome of `provider.getSigner()` on a loaded provider. -/
  signer : Except JSErr Unit
  /-- Outcome of submitting the mint transaction. -/
  mintTx : Except JSErr Unit
  /-- Outcome of `transaction.wait()`. -/
  confirmation : Except JSErr Unit

/-- What a (possibly failing) computation leaves behind: the effects it
performed, the resulting component state, and its value or thrown error. -/
structure Outcome (α : Type) where
  events : List Event
  state : AppState
  value : Except JSErr α

/-- Effectful computations over the component state. -/
def Eff (α : Type) : Type := AppState → Outcome α

/-- A computation that returns `a` without any effect. -/
def Eff.pure {α : Type} (a : α) : Eff α := fun s => ⟨[], s, .ok a⟩

/-- Sequencing: a thrown error skips the continuation. -/
def Eff.bind {α β : Type} (m : Eff α) (f : α → Eff β) : Eff β := fun s =>
  match m s with
  | ⟨es, s1, .error e⟩ => ⟨es, s1, .error e⟩
  | ⟨es, s1, .ok a⟩ =>
    match f a s1 with
    | ⟨es2, s2, v⟩ => ⟨es ++ es2, s2, v⟩

instance : Monad Eff where
  pure := Eff.pure
  bind := Eff.bind

/-- Record one effect. -/
def emit (e : Event) : Eff Unit := fun s => ⟨[e], s, .ok ()⟩

/-- The statement `throw err`. -/
def throwJS {α : Type} (err : JSErr) : Eff α := fun s => ⟨[], s, .error err⟩

/-- Resume with the settled result of an awaited promise (or of an expression
that may throw). -/
def await {α : Type} (r : Except JSErr α) : Eff α := fun s => ⟨[], s, r⟩

/-- Read the component state captured by the handler. -/
def readState : Eff AppState := fun s => ⟨[], s, .ok s⟩

/-- The block `try { body } catch (error) { handler error }`. -/
def tryCatch (body : Eff Unit) (handler : JSErr → Eff Unit) : Eff Unit := fun s =>
  match body s with
  | ⟨es, s1, .ok a⟩ => ⟨es, s1, .ok a⟩
  | ⟨es, s1, .error e⟩ =>
    match handler e s1 with
    | ⟨es2, s2, v⟩ => ⟨es ++ es2, s2, v⟩

def setIsWaiting (b : Bool) : Eff Unit := fun s =>
  ⟨[.setIsWaiting b], { s with isWaiting := b }, .ok ()⟩

def setMessage (m : String) : Eff Unit := fun s =>
  ⟨[.setMessage m], { s with message := m }, .ok ()⟩

def setImage (v : Option String) : Eff Unit := fun s =>
  ⟨[.setImage v], { s with image := v }, .ok ()⟩

def setURL (v : Option String) : Eff Unit := fun s =>
  ⟨[.setURL v], { s with url := v }, .ok ()⟩

/-! ## The pipeline -/

def generationUrl : String := "https://router.huggingface.co/nebius/v1/images/generations"

def tatumApiUrl : String := "https://api-eu1.tatum.io/v3/ipfs"

/-- The value `ethers.utils.parseUnits("1", "ether")`, in wei. -/
def oneEther : Nat := 10 ^ 18

/-- Lines 69-83 of `App.js`: the two files are added to the archive, the
archive is generated (awaited), and the download link is clicked. -/
def triggerDownload (w : World) (imageData : Bytes) (metadata : JSVal) : Eff Unit := do
  let files := [("image.jpeg", Payload.binary imageData), ("metadata.json", Payload.json metadata 2)]
  await w.zipGenerate
  emit (.archiveDownload "nft-package.zip" files)

/-- The expression `generationResponse.data.data[0].url` of line 109, applied to
the response body `generationResponse.data`. -/
def resultUrl (body : JSVal) : Except JSErr JSVal := do
  let data ← body.getProp "data"
  let first ← data.getIndex 0
  first.getProp "url"

/-- Lines 85-134 of `App.js`. `description` is the state cell captured by the
handler. -/
def createImage (w : World) : Eff Bytes := do
  let st ← readState
  setMessage "Generating Image..."
  if !w.huggingFaceKey.truthy then
    setMessage "Hugging Face API Key is missing. Please check your .env file."
    throwJS (.error "Hugging Face API Key not found.")
  emit (.generationRequest generationUrl ("Bearer " ++ w.huggingFaceKey.toStr) st.description
    "stability-ai/sdxl")
  let body ← await w.generation
  let imageUrl ← await (resultUrl body)
  if !imageUrl.truthy then
    setMessage "Failed to get image URL from API."
    throwJS (.error "Missing image URL in API response.")
  setMessage "Image Generated. Now Downloading..."
  emit (.imageDownload imageUrl)
  let (type, data) ← await w.imageFetch
  let base64data := w.base64 data
  let img := "data:" ++ type.toStr ++ ";base64," ++ base64data
  setImage (some img)
  return data

/-- Lines 136-177 of `App.js`. `name` and `description` are the state cells
captured by the handler. The template literals of lines 156 and 172 convert the
pointers to text, which can throw; line 174 converts `metadataHash` again, with
the same result. -/
def uploadImage (w : World) (imageData : Bytes) : Eff String := do
  let st ← readState
  setMessage "Uploading to IPFS via Tatum..."
  let apiKey := w.tatumKey
  emit (.storageUpload tatumApiUrl apiKey "image.jpeg" "" (.binary imageData))
  let imageUploadBody ← await w.imageUpload
  let imageHash ← await (imageUploadBody.getProp "ipfsHash")
  setMessage "Uploading metadata..."
  let imageText ← await (imageHash.toStr w.numberToString)
  let metadata := JSVal.obj [
    ("name", .str st.name),
    ("description", .str st.description),
    ("image", .str ("ipfs://" ++ imageText))]
  triggerDownload w imageData metadata
  emit (.storageUpload tatumApiUrl apiKey "metadata.json" "application/json" (.json metadata 0))
  let metadataUploadBody ← await w.metadataUpload
  let metadataHash ← await (metadataUploadBody.getProp "ipfsHash")
  let metadataText ← await (metadataHash.toStr w.numberToString)
  let tokenURI := "ipfs://" ++ metadataText
  setURL (some ("https://ipfs.io/ipfs/" ++ metadataText))
  return tokenURI

/-- Lines 179-184 of `App.js`. The state cells `provider` and `nft` are `null`
until `loadBlockchainData` has set them; calling a method on `null` throws. -/
def mintImage (w : World) (tokenURI : String) : Eff Unit := do
  let st ← readState
  setMessage "Waiting for Mint..."
  match st.provider with
  | none => throwJS (.typeError "null" "getSigner")
  | some _ =>
    emit .getSigner
    await w.signer
    match st.nft with
    | none => throwJS (.typeError "null" "connect")
    | some nft =>
      emit (.mintSubmit nft.address tokenURI oneEther)
      await w.mintTx
      emit .mintWait
      await w.confirmation

/-- Lines 46-67 of `App.js`: the form's submit handler. -/
def submitHandler (w : World) : Eff Unit := do
  let st ← readState
  emit .preventDefault
  if st.name = "" ∨ st.description = "" then
    emit (.alert "Please provide a name and description")
    return
  setIsWaiting true
  setMessage ""
  setImage none
  setURL none
  tryCatch
    (do
      let imageData ← createImage w
      let tokenURI ← uploadImage w imageData
      mintImage w tokenURI
      setMessage "NFT Minted Successfully! Your download will start shortly.")
    (fun error => do
      emit (.consoleError "The entire process failed:" error)
      emit (.alert "An error occurred. Please check the console for details.")
      setMessage "Process failed. Please try again.")
  setIsWaiting false

/-! ## Vocabulary of the properties -/

/-- The component state in which `createImage` is entered. -/
def started (s : AppState) : AppState :=
  { s with isWaiting := true, message := "", image := none, url := none }

/-- The metadata object built at lines 153-157, for the text `imageText` of the
image pointer. -/
def metadataOf (s : AppState) (imageText : String) : JSVal :=
  .obj [("name", .str s.name), ("description", .str s.description),
    ("image", .str ("ipfs://" ++ imageText))]

/-- The effects of `submitHandler` before the `try` block (lines 47-55). -/
def prologue : List Event :=
  [.preventDefault, .setIsWaiting true, .setMessage "", .setImage none, .setURL none]

/-- The effects of the `catch` block followed by line 66. -/
def epilogueFailed (e : JSErr) : List Event :=
  [.consoleError "The entire process failed:" e,
   .alert "An error occurred. Please check the console for details.",
   .setMessage "Process failed. Please try again.",
   .setIsWaiting false]

/-- The effects of line 60 followed by line 66. -/
def epilogueSucceeded : List Event :=
  [.setMessage "NFT Minted Successfully! Your download will start shortly.", .setIsWaiting false]

/-- The calls that make up the four pipeline stages. -/
inductive StageCall where
  | generationRequest | imageDownload | imageUpload | metadataUpload | mintSubmit | mintWait
  deriving DecidableEq, Repr

/-- The stage call an event amounts to, if any: of the two storage uploads, the
image upload is the one with a binary payload, the metadata upload the one
with a JSON payload. -/
def Event.stageCall : Event → Option StageCall
  | .generationRequest _ _ _ _ => some .generationRequest
  | .imageDownload _ => some .imageDownload
  | .storageUpload _ _ _ _ (.binary _) => some .imageUpload
  | .storageUpload _ _ _ _ (.json _ _) => some .metadataUpload
  | .mintSubmit _ _ _ => some .mintSubmit
  | .mintWait => some .mintWait
  | _ => none

/-- The stage calls of an effect log, in order. -/
def stageCalls (es : List Event) : List StageCall := es.filterMap Event.stageCall

/-- The stage calls of a complete run. -/
def allStages : List StageCall :=
  [.generationRequest, .imageDownload, .imageUpload, .metadataUpload, .mintSubmit, .mintWait]

/-- Whether an event is a call to something outside the component: an HTTP
request, the archive download, or a wallet call. -/
def Event.isExternalCall : Event → Bool
  | .generationRequest _ _ _ _ => true
  | .imageDownload _ => true
  | .storageUpload _ _ _ _ _ => true
  | .archiveDownload _ _ => true
  | .getSigner => true
  | .mintSubmit _ _ _ => true
  | .mintWait => true
  | _ => false

/-- The external calls of an effect log, in order. -/
def externalCalls (es : List Event) : List Event := es.filter Event.isExternalCall

/-- Whether an event is the generic failure alert of the `catch` block. -/
def Event.isFailureAlert : Event → Bool
  | .alert text => text == "An error occurred. Please check the console for details."
  | _ => false

/-- The failed state: the failure alert was shown, the status message is the
failure message and the form is enabled again. -/
def endsFailed (o : Outcome Unit) : Prop :=
  o.events.any Event.isFailureAlert = true ∧
    o.state.message = "Process failed. Please try again." ∧ o.state.isWaiting = false

/-- The success state: no failure alert, the status message is the success
message and the form is enabled again. -/
def endsSucceeded (o : Outcome Unit) : Prop :=
  o.events.any Event.isFailureAlert = false ∧
    o.state.message = "NFT Minted Successfully! Your download will start shortly." ∧
    o.state.isWaiting = false

/-- Every external service answers successfully: the generation service is
reachable with a configured credential and its response carries a truthy
result URL, the image is fetched, both storage responses are bodies whose
`ipfsHash` can be read and converted to text, the wallet objects are loaded,
and the mint is submitted and confirmed. Nothing is said about the local
archive packaging. -/
def everyServiceSucceeds (w : World) (s : AppState) : Prop :=
  w.huggingFaceKey.truthy = true ∧
  (∃ body imageUrl, w.generation = .ok body ∧ resultUrl body = .ok imageUrl ∧
    imageUrl.truthy = true) ∧
  (∃ type data, w.imageFetch = .ok (type, data)) ∧
  (∃ body imageHash imageText, w.imageUpload = .ok body ∧
    body.getProp "ipfsHash" = .ok imageHash ∧
    imageHash.toStr w.numberToString = .ok imageText) ∧
  (∃ body metadataHash metadataText, w.metadataUpload = .ok body ∧
    body.getProp "ipfsHash" = .ok metadataHash ∧
    metadataHash.toStr w.numberToString = .ok metadataText) ∧
  (∃ p, s.provider = some p) ∧
  w.signer = .ok () ∧
  (∃ c, s.nft = some c) ∧
  w.mintTx = .ok () ∧
  w.confirmation = .ok ()

/-- The metadata document an event sends to the storage service, if any. -/
def Event.metadataDocument : Event → Option Payload
  | .storageUpload _ _ _ _ (.json value indent) => some (.json value indent)
  | _ => none

/-- The metadata documents sent to the storage service, in order. -/
def uploadedMetadata (es : List Event) : List Payload := es.filterMap Event.metadataDocument

/-- The `metadata.json` entry of an archive offered for download, if any. -/
def Event.archiveMetadata : Event → Option Payload
  | .archiveDownload _ files => files.lookup "metadata.json"
  | _ => none

/-- The `metadata.json` entries of the archives offered for download, in order. -/
def archivedMetadata (es : List Event) : List Payload := es.filterMap Event.archiveMetadata

/-- The token URI an event passes to `mint`, if any. -/
def Event.mintedURI : Event → Option String
  | .mintSubmit _ tokenURI _ => some tokenURI
  | _ => none

/-- The token URIs passed to `mint`, in order. -/
def mintedURIs (es : List Event) : List String := es.filterMap Event.mintedURI

/-- Whether an event is a request to the storage service. -/
def Event.isStorageUpload : Event → Bool
  | .storageUpload _ _ _ _ _ => true
  | _ => false

/-- The requests sent to the storage service, in order. -/
def storageUploads (es : List Event) : List Event := es.filter Event.isStorageUpload

/-- The value of the `url` cell at each submission of `mint`, paired with the
token URI submitted: the log is replayed from the initial value `url` of the
cell, every `setURL` updating it. -/
def urlAtMint (url : Option String) : List Event → List (Option String × String)
  | [] => []
  | .setURL value :: rest => urlAtMint value rest
  | .mintSubmit _ tokenURI _ :: rest => (url, tokenURI) :: urlAtMint url rest
  | _ :: rest => urlAtMint url rest

/-- The run reaches the metadata upload and reads the pointer text `m` from
its response: `createImage` returned, the image upload answered with a body
whose `ipfsHash` could be read and converted to text, the archive was produced,
and the metadata upload answered with a body whose `ipfsHash` converts to the
text `m`. Nothing is said about the mint. -/
def metadataPointerRead (w : World) (s : AppState) (m : String) : Prop :=
  ∃ data imageBody imageHash imageText metadataBody metadataHash,
    (createImage w (started s)).value = .ok data ∧
    w.imageUpload = .ok imageBody ∧ imageBody.getProp "ipfsHash" = .ok imageHash ∧
    imageHash.toStr w.numberToString = .ok imageText ∧
    w.zipGenerate = .ok () ∧
    w.metadataUpload = .ok metadataBody ∧
    metadataBody.getProp "ipfsHash" = .ok metadataHash ∧
    metadataHash.toStr w.numberToString = .ok m

/-- A generation response body that carries no result URL: an object whose
`data` is an empty list, or whose first `data` entry is an object without a
`url` or with the empty string as `url`. -/
def carriesNoResultUrl (body : JSVal) : Prop :=
  ∃ fields, body = .obj fields ∧
    (lookupField "data" fields = .arr [] ∨
      ∃ entry rest, lookupField "data" fields = .arr (.obj entry :: rest) ∧
        (lookupField "url" entry = .undefined ∨ lookupField "url" entry = .str ""))

/-! ## Sample inputs -/

/-- A world in which every service succeeds: image pointer `Qimg`, metadata
pointer `Qmeta`. -/
def happyWorld : World where
  huggingFaceKey := .str "hf_key"
  tatumKey := .str "tatum_key"
  generation := .ok (.obj [("data", .arr [.obj [("url", .str "https://img.example/1.png")]])])
  imageFetch := .ok (.str "image/png", [137, 80, 78, 71])
  base64 := fun _ => "iVBORw=="
  numberToString := fun n => toString n
  imageUpload := .ok (.obj [("ipfsHash", .str "Qimg")])
  zipGenerate := .ok ()
  metadataUpload := .ok (.obj [("ipfsHash", .str "Qmeta")])
  signer := .ok ()
  mintTx := .ok ()
  confirmation := .ok ()

/-- The form filled in with the prompt `Truth` / `a brick wall`, wallet loaded. -/
def truthState : AppState where
  provider := some ⟨31337⟩
  nft := some ⟨"0x5FbDB2315678afecb367f032d93F642f64180aa3"⟩
  name := "Truth"
  description := "a brick wall"
  image := none
  url := none
  message := ""
  isWaiting := false

/-- The world of `happyWorld` without the generation credential. -/
def noGenerationKeyWorld : World := { happyWorld with huggingFaceKey := .undefined }

/-- The world of `happyWorld` whose generation response has an empty result list. -/
def emptyResultWorld : World := { happyWorld with generation := .ok (.obj [("data", .arr [])]) }

/-- The world of `happyWorld` whose metadata upload is rejected. -/
def metadataRejectedWorld : World :=
  { happyWorld with metadataUpload := .error (.rejected "Request failed with status code 500") }

/-- The world of `happyWorld` whose image upload is answered with a success
body that has no `ipfsHash` field. -/
def imagePointerMissingWorld : World := { happyWorld with imageUpload := .ok (.obj []) }

/-- The world of `happyWorld` whose metadata upload is answered with a success
body that has no `ipfsHash` field. -/
def metadataPointerMissingWorld : World := { happyWorld with metadataUpload := .ok (.obj []) }

/-- The world of `happyWorld` without the storage credential; the storage
service rejects the unauthenticated request. -/
def noStorageKeyWorld : World :=
  { happyWorld with
    tatumKey := .undefined
    imageUpload := .error (.rejected "Request failed with status code 401") }

/-- The world of `happyWorld` in which producing the archive fails. -/
def packagingFailsWorld : World :=
  { happyWorld with zipGenerate := .error (.rejected "zip generation failed") }

/-- The world of `happyWorld` in which the mint transaction is rejected. -/
def mintRejectedWorld : World :=
  { happyWorld with mintTx := .error (.rejected "user rejected transaction") }

/-- The form with an empty name. -/
def emptyNameState : AppState := { truthState with name := "" }

/-! ## Symbolic execution of the pipeline -/

@[simp] theorem bind_run {α β : Type} (m : Eff α) (f : α → Eff β) (s : AppState) :
    (m >>= f) s = Eff.bind m f s := rfl

@[simp] theorem pure_run {α : Type} (a : α) (s : AppState) :
    (pure a : Eff α) s = ⟨[], s, .ok a⟩ := rfl

theorem createImage_eq (w : World) (s : AppState) : createImage w s =
    if w.huggingFaceKey.truthy = true then
      match w.generation with
      | .error e =>
        ⟨[.setMessage "Generating Image...",
          .generationRequest generationUrl ("Bearer " ++ w.huggingFaceKey.toStr) s.description
            "stability-ai/sdxl"],
         { s with message := "Generating Image..." }, .error e⟩
      | .ok body =>
        match resultUrl body with
        | .error e =>
          ⟨[.setMessage "Generating Image...",
            .generationRequest generationUrl ("Bearer " ++ w.huggingFaceKey.toStr) s.description
              "stability-ai/sdxl"],
           { s with message := "Generating Image..." }, .error e⟩
        | .ok imageUrl =>
          if imageUrl.truthy = true then
            match w.imageFetch with
            | .error e =>
              ⟨[.setMessage "Generating Image...",
                .generationRequest generationUrl ("Bearer " ++ w.huggingFaceKey.toStr)
                  s.description "stability-ai/sdxl",
                .setMessage "Image Generated. Now Downloading...",
                .imageDownload imageUrl],
               { s with message := "Image Generated. Now Downloading..." }, .error e⟩
            | .ok (type, data) =>
              ⟨[.setMessage "Generating Image...",
                .generationRequest generationUrl ("Bearer " ++ w.huggingFaceKey.toStr)
                  s.description "stability-ai/sdxl",
                .setMessage "Image Generated. Now Downloading...",
                .imageDownload imageUrl,
                .setImage (some ("data:" ++ type.toStr ++ ";base64," ++ w.base64 data))],
               { s with
                 message := "Image Generated. Now Downloading...",
                 image := some ("data:" ++ type.toStr ++ ";base64," ++ w.base64 data) },
               .ok data⟩
          else
            ⟨[.setMessage "Generating Image...",
              .generationRequest generationUrl ("Bearer " ++ w.huggingFaceKey.toStr) s.description
                "stability-ai/sdxl",
              .setMessage "Failed to get image URL from API."],
             { s with message := "Failed to get image URL from API." },
             .error (.error "Missing image URL in API response.")⟩
    else
      ⟨[.setMessage "Generating Image...",
        .setMessage "Hugging Face API Key is missing. Please check your .env file."],
       { s with message := "Hugging Face API Key is missing. Please check your .env file." },
       .error (.error "Hugging Face API Key not found.")⟩ := by
  unfold createImage
  by_cases hk : w.huggingFaceKey.truthy = true
  · rcases hg : w.generation with e | body
    · simp [Eff.bind, Eff.pure, readState, emit, setMessage, setImage, await, throwJS, hk, hg]
    · rcases hr : resultUrl body with e | imageUrl
      · simp [Eff.bind, Eff.pure, readState, emit, setMessage, setImage, await, throwJS, hk, hg, hr]
      · by_cases hu : imageUrl.truthy = true
        · rcases hf : w.imageFetch with e | ⟨type, data⟩
          · simp [Eff.bind, Eff.pure, readState, emit, setMessage, setImage, await, throwJS, hk, hg,
              hr, hu, hf]
          · simp [Eff.bind, Eff.pure, readState, emit, setMessage, setImage, await, throwJS, hk, hg,
              hr, hu, hf]
        · simp [Eff.bind, Eff.pure, readState, emit, setMessage, setImage, await, throwJS, hk, hg,
            hr, hu]
  · simp [Eff.bind, Eff.pure, readState, emit, setMessage, setImage, await, throwJS, hk]

theorem uploadImage_eq (w : World) (imageData : Bytes) (s : AppState) :
    uploadImage w imageData s =
    match w.imageUpload with
    | .error e =>
      ⟨[.setMessage "Uploading to IPFS via Tatum...",
        .storageUpload tatumApiUrl w.tatumKey "image.jpeg" "" (.binary imageData)],
       { s with message := "Uploading to IPFS via Tatum..." }, .error e⟩
    | .ok imageBody =>
      match imageBody.getProp "ipfsHash" with
      | .error e =>
        ⟨[.setMessage "Uploading to IPFS via Tatum...",
          .storageUpload tatumApiUrl w.tatumKey "image.jpeg" "" (.binary imageData)],
         { s with message := "Uploading to IPFS via Tatum..." }, .error e⟩
      | .ok imageHash =>
        match imageHash.toStr w.numberToString with
        | .error e =>
          ⟨[.setMessage "Uploading to IPFS via Tatum...",
            .storageUpload tatumApiUrl w.tatumKey "image.jpeg" "" (.binary imageData),
            .setMessage "Uploading metadata..."],
           { s with message := "Uploading metadata..." }, .error e⟩
        | .ok imageText =>
          match w.zipGenerate with
          | .error e =>
            ⟨[.setMessage "Uploading to IPFS via Tatum...",
              .storageUpload tatumApiUrl w.tatumKey "image.jpeg" "" (.binary imageData),
              .setMessage "Uploading metadata..."],
             { s with message := "Uploading metadata..." }, .error e⟩
          | .ok _ =>
            match w.metadataUpload with
            | .error e =>
              ⟨[.setMessage "Uploading to IPFS via Tatum...",
                .storageUpload tatumApiUrl w.tatumKey "image.jpeg" "" (.binary imageData),
                .setMessage "Uploading metadata...",
                .archiveDownload "nft-package.zip"
                  [("image.jpeg", .binary imageData),
                   ("metadata.json", .json (metadataOf s imageText) 2)],
                .storageUpload tatumApiUrl w.tatumKey "metadata.json" "application/json"
                  (.json (metadataOf s imageText) 0)],
               { s with message := "Uploading metadata..." }, .error e⟩
            | .ok metadataBody =>
              match metadataBody.getProp "ipfsHash" with
              | .error e =>
                ⟨[.setMessage "Uploading to IPFS via Tatum...",
                  .storageUpload tatumApiUrl w.tatumKey "image.jpeg" "" (.binary imageData),
                  .setMessage "Uploading metadata...",
                  .archiveDownload "nft-package.zip"
                    [("image.jpeg", .binary imageData),
                     ("metadata.json", .json (metadataOf s imageText) 2)],
                  .storageUpload tatumApiUrl w.tatumKey "metadata.json" "application/json"
                    (.json (metadataOf s imageText) 0)],
                 { s with message := "Uploading metadata..." }, .error e⟩
              | .ok metadataHash =>
                match metadataHash.toStr w.numberToString with
                | .error e =>
                  ⟨[.setMessage "Uploading to IPFS via Tatum...",
                    .storageUpload tatumApiUrl w.tatumKey "image.jpeg" "" (.binary imageData),
                    .setMessage "Uploading metadata...",
                    .archiveDownload "nft-package.zip"
                      [("image.jpeg", .binary imageData),
                       ("metadata.json", .json (metadataOf s imageText) 2)],
                    .storageUpload tatumApiUrl w.tatumKey "metadata.json" "application/json"
                      (.json (metadataOf s imageText) 0)],
                   { s with message := "Uploading metadata..." }, .error e⟩
                | .ok metadataText =>
                  ⟨[.setMessage "Uploading to IPFS via Tatum...",
                    .storageUpload tatumApiUrl w.tatumKey "image.jpeg" "" (.binary imageData),
                    .setMessage "Uploading metadata...",
                    .archiveDownload "nft-package.zip"
                      [("image.jpeg", .binary imageData),
                       ("metadata.json", .json (metadataOf s imageText) 2)],
                    .storageUpload tatumApiUrl w.tatumKey "metadata.json" "application/json"
                      (.json (metadataOf s imageText) 0),
                    .setURL (some ("https://ipfs.io/ipfs/" ++ metadataText))],
                   { s with
                     message := "Uploading metadata...",
                     url := some ("https://ipfs.io/ipfs/" ++ metadataText) },
                   .ok ("ipfs://" ++ metadataText)⟩ := by
  unfold uploadImage triggerDownload metadataOf
  rcases hi : w.imageUpload with e | imageBody
  · simp [Eff.bind, Eff.pure, readState, emit, setMessage, setURL, await, hi]
  · rcases hp : imageBody.getProp "ipfsHash" with e | imageHash
    · simp [Eff.bind, Eff.pure, readState, emit, setMessage, setURL, await, hi, hp]
    · rcases hx : imageHash.toStr w.numberToString with e | imageText
      · simp [Eff.bind, Eff.pure, readState, emit, setMessage, setURL, await, hi, hp, hx]
      · rcases hz : w.zipGenerate with e | u
        · simp [Eff.bind, Eff.pure, readState, emit, setMessage, setURL, await, hi, hp, hx, hz]
        · rcases hm : w.metadataUpload with e | metadataBody
          · simp [Eff.bind, Eff.pure, readState, emit, setMessage, setURL, await, hi, hp, hx,
              hz, hm]
          · rcases hq : metadataBody.getProp "ipfsHash" with e | metadataHash
            · simp [Eff.bind, Eff.pure, readState, emit, setMessage, setURL, await, hi, hp, hx,
                hz, hm, hq]
            · rcases hy : metadataHash.toStr w.numberToString with e | metadataText
              · simp [Eff.bind, Eff.pure, readState, emit, setMessage, setURL, await, hi, hp,
                  hx, hz, hm, hq, hy]
              · simp [Eff.bind, Eff.pure, readState, emit, setMessage, setURL, await, hi, hp,
                  hx, hz, hm, hq, hy]

theorem mintImage_eq (w : World) (tokenURI : String) (s : AppState) :
    mintImage w tokenURI s =
    match s.provider with
    | none =>
      ⟨[.setMessage "Waiting for Mint..."], { s with message := "Waiting for Mint..." },
       .error (.typeError "null" "getSigner")⟩
    | some _ =>
      match w.signer with
      | .error e =>
        ⟨[.setMessage "Waiting for Mint...", .getSigner],
         { s with message := "Waiting for Mint..." }, .error e⟩
      | .ok _ =>
        match s.nft with
        | none =>
          ⟨[.setMessage "Waiting for Mint...", .getSigner],
           { s with message := "Waiting for Mint..." },
           .error (.typeError "null" "connect")⟩
        | some nft =>
          match w.mintTx with
          | .error e =>
            ⟨[.setMessage "Waiting for Mint...", .getSigner,
              .mintSubmit nft.address tokenURI oneEther],
             { s with message := "Waiting for Mint..." }, .error e⟩
          | .ok _ =>
            ⟨[.setMessage "Waiting for Mint...", .getSigner,
              .mintSubmit nft.address tokenURI oneEther, .mintWait],
             { s with message := "Waiting for Mint..." }, w.confirmation⟩ := by
  unfold mintImage
  rcases hp : s.provider with _ | p
  · simp [Eff.bind, Eff.pure, readState, emit, setMessage, await, throwJS, hp]
  · rcases hs : w.signer with e | u
    · simp [Eff.bind, Eff.pure, readState, emit, setMessage, await, throwJS, hp, hs]
    · rcases hn : s.nft with _ | nft
      · simp [Eff.bind, Eff.pure, readState, emit, setMessage, await, throwJS, hp, hs, hn]
      · rcases ht : w.mintTx with e | u
        · simp [Eff.bind, Eff.pure, readState, emit, setMessage, await, throwJS, hp, hs, hn, ht]
        · simp [Eff.bind, Eff.pure, readState, emit, setMessage, await, throwJS, hp, hs, hn, ht]

theorem submitHandler_valid (w : World) (s : AppState)
    (h : ¬ (s.name = "" ∨ s.description = "")) :
    submitHandler w s =
    match createImage w (started s) with
    | ⟨es1, t1, .error e⟩ =>
      ⟨prologue ++ es1 ++ epilogueFailed e,
       { t1 with message := "Process failed. Please try again.", isWaiting := false }, .ok ()⟩
    | ⟨es1, t1, .ok imageData⟩ =>
      match uploadImage w imageData t1 with
      | ⟨es2, t2, .error e⟩ =>
        ⟨prologue ++ es1 ++ es2 ++ epilogueFailed e,
         { t2 with message := "Process failed. Please try again.", isWaiting := false }, .ok ()⟩
      | ⟨es2, t2, .ok tokenURI⟩ =>
        match mintImage w tokenURI t2 with
        | ⟨es3, t3, .error e⟩ =>
          ⟨prologue ++ es1 ++ es2 ++ es3 ++ epilogueFailed e,
           { t3 with message := "Process failed. Please try again.", isWaiting := false }, .ok ()⟩
        | ⟨es3, t3, .ok _⟩ =>
          ⟨prologue ++ es1 ++ es2 ++ es3 ++ epilogueSucceeded,
           { t3 with
             message := "NFT Minted Successfully! Your download will start shortly.",
             isWaiting := false }, .ok ()⟩ := by
  rcases hc : createImage w (started s) with ⟨es1, t1, e | imageData⟩
  · simp only [started] at hc
    simp [submitHandler, Eff.bind, Eff.pure, readState, emit, setIsWaiting, setMessage, setImage,
      setURL, tryCatch, h, hc, prologue, epilogueFailed]
  · rcases hu : uploadImage w imageData t1 with ⟨es2, t2, e | tokenURI⟩
    · simp only [started] at hc
      simp [submitHandler, Eff.bind, Eff.pure, readState, emit, setIsWaiting, setMessage,
        setImage, setURL, tryCatch, h, hc, hu, prologue, epilogueFailed]
    · rcases hm : mintImage w tokenURI t2 with ⟨es3, t3, e | u⟩
      · simp only [started] at hc
        simp [submitHandler, Eff.bind, Eff.pure, readState, emit, setIsWaiting, setMessage,
          setImage, setURL, tryCatch, h, hc, hu, hm, prologue, epilogueFailed]
      · simp only [started] at hc
        simp [submitHandler, Eff.bind, Eff.pure, readState, emit, setIsWaiting, setMessage,
          setImage, setURL, tryCatch, h, hc, hu, hm, prologue, epilogueSucceeded]

theorem resultUrl_of_carriesNoResultUrl (body : JSVal) (hb : carriesNoResultUrl body) :
    (∃ e, resultUrl body = .error e) ∨
      (∃ imageUrl, resultUrl body = .ok imageUrl ∧ imageUrl.truthy = false) := by
  obtain ⟨fields, rfl, hd⟩ := hb
  rcases hd with hd | ⟨entry, rest, hd, hu | hu⟩
  · left
    simp [resultUrl, JSVal.getProp, JSVal.getIndex, hd, bind, Except.bind]
  · right
    refine ⟨.undefined, ?_, rfl⟩
    simp [resultUrl, JSVal.getProp, JSVal.getIndex, hd, hu, bind, Except.bind]
  · right
    refine ⟨.str "", ?_, rfl⟩
    simp [resultUrl, JSVal.getProp, JSVal.getIndex, hd, hu, bind, Except.bind]

theorem happyWorld_succeeds : everyServiceSucceeds happyWorld truthState := by
  refine ⟨rfl, ⟨_, _, rfl, rfl, rfl⟩, ⟨_, _, rfl⟩, ⟨_, _, _, rfl, rfl, rfl⟩,
    ⟨_, _, _, rfl, rfl, rfl⟩, ⟨_, rfl⟩, rfl, ⟨_, rfl⟩, rfl, rfl⟩

/-! ## Claims -/

set_option maxHeartbeats 1600000

/-- C1: a prompt whose name or description is the empty string is rejected
before the pipeline starts: the handler only calls `preventDefault` and shows
the alert, so it issues no external call (no generation request, image
download, storage upload, archive download or mint), and the component state
(`isWaiting`, `message`, `image`, `url` included) is left unchanged. -/
theorem C1_empty_prompt_rejected (w : World) (s : AppState)
    (h : s.name = "" ∨ s.description = "") :
    (submitHandler w s).events
        = [.preventDefault, .alert "Please provide a name and description"] ∧
      externalCalls (submitHandler w s).events = [] ∧
      (submitHandler w s).state = s := by
  have hrun : submitHandler w s
      = ⟨[.preventDefault, .alert "Please provide a name and description"], s, .ok ()⟩ := by
    simp [submitHandler, Eff.bind, Eff.pure, readState, emit, h]
  rw [hrun]
  simp [externalCalls, Event.isExternalCall]

theorem C1_empty_prompt_rejected_witness :
    (emptyNameState.name = "" ∨ emptyNameState.description = "") ∧
      (submitHandler happyWorld emptyNameState).events
        = [.preventDefault, .alert "Please provide a name and description"] ∧
      externalCalls (submitHandler happyWorld emptyNameState).events = [] ∧
      (submitHandler happyWorld emptyNameState).state = emptyNameState :=
  ⟨Or.inl rfl, C1_empty_prompt_rejected happyWorld emptyNameState (Or.inl rfl)⟩

/-- C2 counterexample: the prompt is valid and every external service
succeeds, but producing the archive fails; the run stops after the image
upload, without metadata upload or mint, and ends in the failed state. -/
theorem C2_counterexample :
    ¬ (truthState.name = "" ∨ truthState.description = "") ∧
      everyServiceSucceeds packagingFailsWorld truthState ∧
      stageCalls (submitHandler packagingFailsWorld truthState).events
        = [.generationRequest, .imageDownload, .imageUpload] ∧
      stageCalls (submitHandler packagingFailsWorld truthState).events ≠ allStages ∧
      endsFailed (submitHandler packagingFailsWorld truthState) ∧
      ¬ endsSucceeded (submitHandler packagingFailsWorld truthState) := by
  refine ⟨by decide, ?_, rfl, by decide, ⟨rfl, rfl, rfl⟩, ?_⟩
  · exact ⟨rfl, ⟨_, _, rfl, rfl, rfl⟩, ⟨_, _, rfl⟩, ⟨_, _, _, rfl, rfl, rfl⟩,
      ⟨_, _, _, rfl, rfl, rfl⟩, ⟨_, rfl⟩, rfl, ⟨_, rfl⟩, rfl, rfl⟩
  · intro hs
    exact absurd hs.2.1 (by decide)

/-- C2 (amended): for a prompt with non-empty name and description, when every
external service succeeds and the archive packaging of `triggerDownload` also
succeeds, the run issues the stage calls exactly once each and in order
(generation request, image download, image upload, metadata upload, mint
submission, wait for confirmation) and ends in the success state. -/
theorem C2_successful_run_order (w : World) (s : AppState)
    (h : ¬ (s.name = "" ∨ s.description = "")) (hw : everyServiceSucceeds w s)
    (hz : w.zipGenerate = .ok ()) :
    stageCalls (submitHandler w s).events = allStages ∧ endsSucceeded (submitHandler w s) := by
  obtain ⟨hk, ⟨body, imageUrl, hg, hr, hu⟩, ⟨type, data, hf⟩, ⟨b1, h1, t1, hi, hp1, hx1⟩,
    ⟨b2, h2, t2, hm, hp2, hx2⟩, ⟨p, hp⟩, hs, ⟨c, hn⟩, ht, hc⟩ := hw
  have hp' : (started s).provider = some p := hp
  have hn' : (started s).nft = some c := hn
  rw [submitHandler_valid w s h, createImage_eq]
  simp [hk, hg, hr, hu, hf, uploadImage_eq, hi, hp1, hx1, hz, hm, hp2, hx2, mintImage_eq, hp',
    hn', hs, ht, hc, stageCalls, allStages, Event.stageCall, prologue, epilogueSucceeded,
    endsSucceeded, Event.isFailureAlert]

theorem C2_successful_run_order_witness :
    ¬ (truthState.name = "" ∨ truthState.description = "") ∧
      everyServiceSucceeds happyWorld truthState ∧
      happyWorld.zipGenerate = .ok () ∧
      stageCalls (submitHandler happyWorld truthState).events = allStages ∧
      endsSucceeded (submitHandler happyWorld truthState) :=
  ⟨by decide, happyWorld_succeeds, rfl,
    C2_successful_run_order happyWorld truthState (by decide) happyWorld_succeeds rfl⟩

/-- C3: stage ordering is monotonic under failure. For every run that passed
validation, the stage calls issued form an initial segment of the complete
sequence, and a run that stops short of the complete sequence ends in the
failed state. A failing stage cuts the sequence at that stage: if
`createImage` throws there is no storage upload and no mint; if the image
upload is rejected there is no metadata upload and no mint; if the metadata
upload is rejected mint is never called; if the mint submission is rejected
there is no wait; and each of these failures ends the run in the failed state. -/
theorem C3_stage_order_under_failure (w : World) (s : AppState)
    (h : ¬ (s.name = "" ∨ s.description = "")) :
    stageCalls (submitHandler w s).events <+: allStages ∧
      (stageCalls (submitHandler w s).events ≠ allStages → endsFailed (submitHandler w s)) ∧
      (∀ e, (createImage w (started s)).value = .error e →
        stageCalls (submitHandler w s).events <+: [.generationRequest, .imageDownload] ∧
          endsFailed (submitHandler w s)) ∧
      (∀ e, w.imageUpload = .error e →
        stageCalls (submitHandler w s).events
            <+: [.generationRequest, .imageDownload, .imageUpload] ∧
          endsFailed (submitHandler w s)) ∧
      (∀ e, w.metadataUpload = .error e →
        stageCalls (submitHandler w s).events
            <+: [.generationRequest, .imageDownload, .imageUpload, .metadataUpload] ∧
          endsFailed (submitHandler w s)) ∧
      (∀ e, w.mintTx = .error e →
        stageCalls (submitHandler w s).events
            <+: [.generationRequest, .imageDownload, .imageUpload, .metadataUpload,
              .mintSubmit] ∧
          endsFailed (submitHandler w s)) ∧
      (∀ e, w.confirmation = .error e → endsFailed (submitHandler w s)) := by
  rw [submitHandler_valid w s h]
  generalize hr : createImage w (started s) = r
  rw [createImage_eq] at hr
  repeat' split at hr
  all_goals subst hr
  all_goals try (simp_all [stageCalls, Event.stageCall, allStages, prologue, epilogueFailed,
    endsFailed, Event.isFailureAlert]; done)
  simp only []
  generalize hr2 : uploadImage w _ _ = r2
  rw [uploadImage_eq] at hr2
  repeat' split at hr2
  all_goals subst hr2
  all_goals try (simp_all [stageCalls, Event.stageCall, allStages, prologue, epilogueFailed,
    endsFailed, Event.isFailureAlert]; done)
  simp only []
  generalize hr3 : mintImage w _ _ = r3
  rw [mintImage_eq] at hr3
  repeat' split at hr3
  all_goals subst hr3
  all_goals try (simp_all [stageCalls, Event.stageCall, allStages, prologue, epilogueFailed,
    endsFailed, Event.isFailureAlert]; done)
  rcases hcf : w.confirmation with e | u <;>
    simp_all [stageCalls, Event.stageCall, allStages, prologue, epilogueFailed,
      epilogueSucceeded, endsFailed, Event.isFailureAlert]

theorem C3_stage_order_under_failure_witness :
    ¬ (truthState.name = "" ∨ truthState.description = "") ∧
      stageCalls (submitHandler metadataRejectedWorld truthState).events
        <+: [.generationRequest, .imageDownload, .imageUpload, .metadataUpload] ∧
      endsFailed (submitHandler metadataRejectedWorld truthState) :=
  ⟨by decide,
    (C3_stage_order_under_failure metadataRejectedWorld truthState (by decide)).2.2.2.2.1
      (.rejected "Request failed with status code 500") rfl⟩

/-- C4: for the submitted name and description and an image pointer `h`
returned by the image upload, every metadata document sent to the storage
service is `JSON.stringify` of exactly `{name, description, image: "ipfs://" ++ h}`
and every `metadata.json` placed in the archive is the pretty-printed
`JSON.stringify` of that same object; both are produced (once) as soon as
`createImage` and the archive packaging succeed. -/
theorem C4_metadata_document (w : World) (s : AppState) (body : JSVal) (h : String)
    (hv : ¬ (s.name = "" ∨ s.description = ""))
    (hi : w.imageUpload = .ok body) (hp : body.getProp "ipfsHash" = .ok (.str h)) :
    (∀ d ∈ uploadedMetadata (submitHandler w s).events,
        d = .json (.obj [("name", .str s.name), ("description", .str s.description),
          ("image", .str ("ipfs://" ++ h))]) 0) ∧
      (∀ d ∈ archivedMetadata (submitHandler w s).events,
        d = .json (.obj [("name", .str s.name), ("description", .str s.description),
          ("image", .str ("ipfs://" ++ h))]) 2) ∧
      (∀ data, (createImage w (started s)).value = .ok data → w.zipGenerate = .ok () →
        uploadedMetadata (submitHandler w s).events
            = [.json (.obj [("name", .str s.name), ("description", .str s.description),
                ("image", .str ("ipfs://" ++ h))]) 0] ∧
          archivedMetadata (submitHandler w s).events
            = [.json (.obj [("name", .str s.name), ("description", .str s.description),
                ("image", .str ("ipfs://" ++ h))]) 2]) := by
  rw [submitHandler_valid w s hv]
  generalize hr : createImage w (started s) = r
  rw [createImage_eq] at hr
  repeat' split at hr
  all_goals subst hr
  all_goals try (simp_all [uploadedMetadata, archivedMetadata, Event.metadataDocument,
    Event.archiveMetadata, prologue, epilogueFailed]; done)
  simp only []
  generalize hr2 : uploadImage w _ _ = r2
  rw [uploadImage_eq] at hr2
  simp only [hi, hp, JSVal.toStr] at hr2
  repeat' split at hr2
  all_goals subst hr2
  all_goals try (simp_all [uploadedMetadata, archivedMetadata, Event.metadataDocument,
    Event.archiveMetadata, prologue, epilogueFailed, metadataOf, started, JSVal.toStr,
    List.lookup]; done)
  simp only []
  generalize hr3 : mintImage w _ _ = r3
  rw [mintImage_eq] at hr3
  repeat' split at hr3
  all_goals subst hr3
  all_goals try (simp_all [uploadedMetadata, archivedMetadata, Event.metadataDocument,
    Event.archiveMetadata, prologue, epilogueFailed, metadataOf, started, JSVal.toStr,
    List.lookup]; done)
  rcases hcf : w.confirmation with e | u <;>
    simp_all [uploadedMetadata, archivedMetadata, Event.metadataDocument,
      Event.archiveMetadata, prologue, epilogueFailed, epilogueSucceeded, metadataOf, started,
      JSVal.toStr, List.lookup]

theorem C4_metadata_document_witness :
    ¬ (truthState.name = "" ∨ truthState.description = "") ∧
      happyWorld.imageUpload = .ok (.obj [("ipfsHash", .str "Qimg")]) ∧
      (JSVal.obj [("ipfsHash", .str "Qimg")]).getProp "ipfsHash" = .ok (.str "Qimg") ∧
      uploadedMetadata (submitHandler happyWorld truthState).events
        = [.json (.obj [("name", .str "Truth"), ("description", .str "a brick wall"),
            ("image", .str "ipfs://Qimg")]) 0] ∧
      archivedMetadata (submitHandler happyWorld truthState).events
        = [.json (.obj [("name", .str "Truth"), ("description", .str "a brick wall"),
            ("image", .str "ipfs://Qimg")]) 2] :=
  ⟨by decide, rfl, rfl,
    (C4_metadata_document happyWorld truthState _ "Qimg" (by decide) rfl rfl).2.2
      [137, 80, 78, 71] rfl rfl⟩

/-- C5: when the generation-service credential is absent (`undefined`, or any
falsy value such as the empty string), `createImage` throws the configuration
error before any HTTP call, and the whole run issues no external call at all:
no generation request, image download, storage upload or mint; a run that
passed validation ends in the failed state. -/
theorem C5_missing_generation_credential (w : World) (s : AppState)
    (hk : w.huggingFaceKey.truthy = false) :
    (createImage w s).value = .error (.error "Hugging Face API Key not found.") ∧
      externalCalls (createImage w s).events = [] ∧
      externalCalls (submitHandler w s).events = [] ∧
      stageCalls (submitHandler w s).events = [] ∧
      (¬ (s.name = "" ∨ s.description = "") → endsFailed (submitHandler w s)) := by
  have hc : ∀ t, createImage w t
      = ⟨[.setMessage "Generating Image...",
          .setMessage "Hugging Face API Key is missing. Please check your .env file."],
         { t with message := "Hugging Face API Key is missing. Please check your .env file." },
         .error (.error "Hugging Face API Key not found.")⟩ := by
    intro t
    rw [createImage_eq]
    simp [hk]
  by_cases h : s.name = "" ∨ s.description = ""
  · have hrun : submitHandler w s
        = ⟨[.preventDefault, .alert "Please provide a name and description"], s, .ok ()⟩ := by
      simp [submitHandler, Eff.bind, Eff.pure, readState, emit, h]
    rw [hrun, hc]
    simp [externalCalls, Event.isExternalCall, stageCalls, Event.stageCall, h]
  · rw [submitHandler_valid w s h, hc, hc]
    simp [externalCalls, Event.isExternalCall, stageCalls, Event.stageCall, prologue,
      epilogueFailed, endsFailed, Event.isFailureAlert]

theorem C5_missing_generation_credential_witness :
    noGenerationKeyWorld.huggingFaceKey.truthy = false ∧
      (createImage noGenerationKeyWorld truthState).value
        = .error (.error "Hugging Face API Key not found.") ∧
      externalCalls (submitHandler noGenerationKeyWorld truthState).events = [] ∧
      endsFailed (submitHandler noGenerationKeyWorld truthState) :=
  ⟨rfl, (C5_missing_generation_credential noGenerationKeyWorld truthState rfl).1,
    (C5_missing_generation_credential noGenerationKeyWorld truthState rfl).2.2.1,
    (C5_missing_generation_credential noGenerationKeyWorld truthState rfl).2.2.2.2
      (by decide)⟩

/-- C6: when the generation service answers with a body that carries no result
URL (an empty result list, a first entry without a `url`, or an empty `url`),
`createImage` throws, the run ends in the failed state, and after the
generation request no other stage call is issued: no image download, no
storage upload, no mint. -/
theorem C6_no_result_url (w : World) (s : AppState) (body : JSVal)
    (h : ¬ (s.name = "" ∨ s.description = ""))
    (hk : w.huggingFaceKey.truthy = true) (hg : w.generation = .ok body)
    (hb : carriesNoResultUrl body) :
    (∃ e, (createImage w (started s)).value = .error e) ∧
      endsFailed (submitHandler w s) ∧
      stageCalls (submitHandler w s).events = [.generationRequest] := by
  rw [submitHandler_valid w s h, createImage_eq]
  rcases resultUrl_of_carriesNoResultUrl body hb with ⟨e, hr⟩ | ⟨imageUrl, hr, hu⟩
  · simp [hk, hg, hr, stageCalls, Event.stageCall, prologue, epilogueFailed, endsFailed,
      Event.isFailureAlert]
  · simp [hk, hg, hr, hu, stageCalls, Event.stageCall, prologue, epilogueFailed, endsFailed,
      Event.isFailureAlert]

theorem C6_no_result_url_witness :
    ¬ (truthState.name = "" ∨ truthState.description = "") ∧
      emptyResultWorld.huggingFaceKey.truthy = true ∧
      emptyResultWorld.generation = .ok (.obj [("data", .arr [])]) ∧
      carriesNoResultUrl (.obj [("data", .arr [])]) ∧
      (∃ e, (createImage emptyResultWorld (started truthState)).value = .error e) ∧
      endsFailed (submitHandler emptyResultWorld truthState) ∧
      stageCalls (submitHandler emptyResultWorld truthState).events = [.generationRequest] :=
  ⟨by decide, rfl, rfl, ⟨_, rfl, Or.inl rfl⟩,
    C6_no_result_url emptyResultWorld truthState _ (by decide) rfl rfl ⟨_, rfl, Or.inl rfl⟩⟩

/-- C7 (the code departs from the claim): a storage response body without
`ipfsHash` does not make the upload fail. With the field missing from the
image upload response, the run still sends a metadata document whose image is
`ipfs://undefined`, calls every stage and ends in the success state; with the
field missing from the metadata upload response, `mint` is called with the
token URI `ipfs://undefined` and the run ends in the success state. -/
theorem C7_missing_pointer_not_rejected :
    (stageCalls (submitHandler imagePointerMissingWorld truthState).events = allStages ∧
      uploadedMetadata (submitHandler imagePointerMissingWorld truthState).events
        = [.json (.obj [("name", .str "Truth"), ("description", .str "a brick wall"),
            ("image", .str "ipfs://undefined")]) 0] ∧
      endsSucceeded (submitHandler imagePointerMissingWorld truthState)) ∧
    (stageCalls (submitHandler metadataPointerMissingWorld truthState).events = allStages ∧
      mintedURIs (submitHandler metadataPointerMissingWorld truthState).events
        = ["ipfs://undefined"] ∧
      (submitHandler metadataPointerMissingWorld truthState).state.url
        = some "https://ipfs.io/ipfs/undefined" ∧
      endsSucceeded (submitHandler metadataPointerMissingWorld truthState)) := by
  refine ⟨⟨rfl, rfl, ?_⟩, ⟨rfl, rfl, rfl, ?_⟩⟩ <;> exact ⟨rfl, rfl, rfl⟩

/-- C8 (the code departs from the claim): with the storage credential absent
the image upload request is still sent, carrying `undefined` as its API key;
the run fails only when the storage service rejects that request. -/
theorem C8_missing_storage_credential_still_uploads :
    noStorageKeyWorld.tatumKey.truthy = false ∧
      storageUploads (submitHandler noStorageKeyWorld truthState).events
        = [.storageUpload tatumApiUrl .undefined "image.jpeg" "" (.binary [137, 80, 78, 71])] ∧
      stageCalls (submitHandler noStorageKeyWorld truthState).events
        = [.generationRequest, .imageDownload, .imageUpload] ∧
      endsFailed (submitHandler noStorageKeyWorld truthState) := by
  refine ⟨rfl, rfl, rfl, ?_⟩
  exact ⟨rfl, rfl, rfl⟩

/-- C9 counterexample: generation and the image upload succeed and producing
the archive fails; then neither the metadata upload nor the mint is performed
and the run ends in the failed state, whereas the same run with a successful
packaging ends in the success state. -/
theorem C9_counterexample :
    (∃ data, (createImage packagingFailsWorld (started truthState)).value = .ok data) ∧
      (∃ body, packagingFailsWorld.imageUpload = .ok body) ∧
      stageCalls (submitHandler packagingFailsWorld truthState).events
        = [.generationRequest, .imageDownload, .imageUpload] ∧
      endsFailed (submitHandler packagingFailsWorld truthState) ∧
      endsSucceeded (submitHandler happyWorld truthState) :=
  ⟨⟨_, rfl⟩, ⟨_, rfl⟩, rfl, ⟨rfl, rfl, rfl⟩, ⟨rfl, rfl, rfl⟩⟩

/-- C9 (amended): the archive download is awaited and gates the pipeline. For
every run in which generation and the image upload succeed (the upload
answering with a pointer that converts to text): if `triggerDownload` fails, no
archive is offered, neither the metadata upload nor the mint is performed, and
the run ends in the failed state; if it succeeds, the archive is offered, the
metadata upload is performed next, and the mint is submitted once the metadata
upload succeeds and the wallet objects are available. -/
theorem C9_packaging_gates_pipeline (w : World) (s : AppState) (data : Bytes)
    (body imageHash : JSVal) (imageText : String)
    (h : ¬ (s.name = "" ∨ s.description = ""))
    (hc : (createImage w (started s)).value = .ok data)
    (hi : w.imageUpload = .ok body) (hp : body.getProp "ipfsHash" = .ok imageHash)
    (hx : imageHash.toStr w.numberToString = .ok imageText) :
    (∀ e, w.zipGenerate = .error e →
      stageCalls (submitHandler w s).events
          = [.generationRequest, .imageDownload, .imageUpload] ∧
        archivedMetadata (submitHandler w s).events = [] ∧
        endsFailed (submitHandler w s)) ∧
      (w.zipGenerate = .ok () →
        [.generationRequest, .imageDownload, .imageUpload, .metadataUpload]
            <+: stageCalls (submitHandler w s).events ∧
          archivedMetadata (submitHandler w s).events = [.json (metadataOf s imageText) 2] ∧
          (∀ metadataBody metadataHash metadataText p c,
            w.metadataUpload = .ok metadataBody →
            metadataBody.getProp "ipfsHash" = .ok metadataHash →
            metadataHash.toStr w.numberToString = .ok metadataText →
            s.provider = some p → w.signer = .ok () → s.nft = some c →
            [.generationRequest, .imageDownload, .imageUpload, .metadataUpload, .mintSubmit]
              <+: stageCalls (submitHandler w s).events)) := by
  rw [submitHandler_valid w s h]
  generalize hr : createImage w (started s) = r at hc ⊢
  rw [createImage_eq] at hr
  repeat' split at hr
  all_goals subst hr
  all_goals try (simp_all; done)
  simp only []
  generalize hr2 : uploadImage w _ _ = r2
  rw [uploadImage_eq] at hr2
  simp only [hi, hp, hx] at hr2
  repeat' split at hr2
  all_goals subst hr2
  all_goals try (first
    | (simp_all [stageCalls, Event.stageCall, archivedMetadata, Event.archiveMetadata,
        prologue, epilogueFailed, endsFailed, Event.isFailureAlert, metadataOf, started,
        List.lookup]; done)
    | (simp_all [stageCalls, Event.stageCall, archivedMetadata, Event.archiveMetadata,
        prologue, epilogueFailed, endsFailed, Event.isFailureAlert, metadataOf, started,
        List.lookup]
       intros; simp_all))
  simp only []
  generalize hr3 : mintImage w _ _ = r3
  rw [mintImage_eq] at hr3
  repeat' split at hr3
  all_goals subst hr3
  all_goals try (simp_all [stageCalls, Event.stageCall, archivedMetadata, Event.archiveMetadata,
    prologue, epilogueFailed, endsFailed, Event.isFailureAlert, metadataOf, started,
    List.lookup]; done)
  rcases hcf : w.confirmation with e | u <;>
    simp_all [stageCalls, Event.stageCall, archivedMetadata, Event.archiveMetadata,
      prologue, epilogueFailed, epilogueSucceeded, endsFailed, Event.isFailureAlert, metadataOf,
      started, List.lookup]

theorem C9_packaging_gates_pipeline_witness :
    ¬ (truthState.name = "" ∨ truthState.description = "") ∧
      (createImage packagingFailsWorld (started truthState)).value = .ok [137, 80, 78, 71] ∧
      packagingFailsWorld.imageUpload = .ok (.obj [("ipfsHash", .str "Qimg")]) ∧
      (JSVal.obj [("ipfsHash", .str "Qimg")]).getProp "ipfsHash" = .ok (.str "Qimg") ∧
      (JSVal.str "Qimg").toStr packagingFailsWorld.numberToString = .ok "Qimg" ∧
      stageCalls (submitHandler packagingFailsWorld truthState).events
        = [.generationRequest, .imageDownload, .imageUpload] ∧
      archivedMetadata (submitHandler packagingFailsWorld truthState).events = [] ∧
      endsFailed (submitHandler packagingFailsWorld truthState) :=
  ⟨by decide, rfl, rfl, rfl, rfl,
    (C9_packaging_gates_pipeline packagingFailsWorld truthState _ _ _ _ (by decide) rfl rfl
      rfl rfl).1 (.rejected "zip generation failed") rfl⟩

/-- C10 counterexample: the metadata upload succeeds and the mint transaction
is rejected; after the run `url` is the metadata link, not `null`. -/
theorem C10_counterexample :
    (∃ body, mintRejectedWorld.metadataUpload = .ok body) ∧
      (∃ e, mintRejectedWorld.mintTx = .error e) ∧
      stageCalls (submitHandler mintRejectedWorld truthState).events
        = [.generationRequest, .imageDownload, .imageUpload, .metadataUpload, .mintSubmit] ∧
      endsFailed (submitHandler mintRejectedWorld truthState) ∧
      (submitHandler mintRejectedWorld truthState).state.url
        = some "https://ipfs.io/ipfs/Qmeta" ∧
      (submitHandler mintRejectedWorld truthState).state.url ≠ none :=
  ⟨⟨_, rfl⟩, ⟨_, rfl⟩, rfl, ⟨rfl, rfl, rfl⟩, rfl, by decide⟩

/-- C10 (amended): the `url` cell is set when the metadata upload returns,
before the mint is submitted, and is not tied to the mint. For every run that
passes validation: `url` is reset to `null` at the start, before any external
call; whenever `mint` is submitted, `url` already holds
`"https://ipfs.io/ipfs/" ++ m` and the token URI passed is `"ipfs://" ++ m`,
for the metadata pointer text `m` read by the run; and after the run `url` is
non-null exactly when the run read such a pointer text `m`, whether or not the
mint was then submitted or confirmed, in which case it equals
`"https://ipfs.io/ipfs/" ++ m`; `isWaiting` is then `false`, the condition under
which line 212 renders the link. -/
theorem C10_link_exposed_after_metadata_upload (w : World) (s : AppState)
    (h : ¬ (s.name = "" ∨ s.description = "")) :
    [.preventDefault, .setIsWaiting true, .setMessage "", .setImage none, .setURL none]
        <+: (submitHandler w s).events ∧
      (∀ p ∈ urlAtMint s.url (submitHandler w s).events,
        ∃ m, metadataPointerRead w s m ∧
          p = (some ("https://ipfs.io/ipfs/" ++ m), "ipfs://" ++ m)) ∧
      (∀ u, (submitHandler w s).state.url = some u ↔
        ∃ m, metadataPointerRead w s m ∧ "https://ipfs.io/ipfs/" ++ m = u) ∧
      (submitHandler w s).state.isWaiting = false := by
  rw [submitHandler_valid w s h]
  simp only [metadataPointerRead]
  generalize hr : createImage w (started s) = r
  rw [createImage_eq] at hr
  repeat' split at hr
  all_goals subst hr
  all_goals try (simp_all [urlAtMint, prologue, epilogueFailed, started]; done)
  simp only []
  generalize hr2 : uploadImage w _ _ = r2
  rw [uploadImage_eq] at hr2
  repeat' split at hr2
  all_goals subst hr2
  all_goals try (simp_all [urlAtMint, prologue, epilogueFailed, started]; done)
  simp only []
  generalize hr3 : mintImage w _ _ = r3
  rw [mintImage_eq] at hr3
  repeat' split at hr3
  all_goals subst hr3
  all_goals try (simp_all [urlAtMint, prologue, epilogueFailed, started]; done)
  rcases hcf : w.confirmation with e | u <;>
    simp_all [urlAtMint, prologue, epilogueFailed, epilogueSucceeded, started]

theorem C10_link_exposed_after_metadata_upload_witness :
    ¬ (truthState.name = "" ∨ truthState.description = "") ∧
      metadataPointerRead mintRejectedWorld truthState "Qmeta" ∧
      (submitHandler mintRejectedWorld truthState).state.url
        = some "https://ipfs.io/ipfs/Qmeta" :=
  ⟨by decide, ⟨_, _, _, _, _, _, rfl, rfl, rfl, rfl, rfl, rfl, rfl, rfl⟩,
    ((C10_link_exposed_after_metadata_upload mintRejectedWorld truthState (by decide)).2.2.1
      _).2 ⟨"Qmeta", ⟨_, _, _, _, _, _, rfl, rfl, rfl, rfl, rfl, rfl, rfl, rfl⟩, rfl⟩⟩

end App
